import Mathlib

set_option maxRecDepth 100000
set_option maxHeartbeats 1000000

/-!
Shallow embedding of `src/api/upbit.py` (the `UPBitApi` client of the mybit
repository) and proofs of the specification claims about it.

The embedding models:
* `urllib.parse.urlencode` (with its default `quote_plus` quoting) over an
  insertion-ordered association list;
* `hashlib.sha512(...).hexdigest()` as a full executable SHA-512 over byte
  lists (`Nat` values `< 256`), with lowercase hex output;
* the `UPBitApi` methods as pure functions from their inputs (plus the
  per-call `uuid.uuid4()` draw, passed explicitly as a `nonce` argument) to
  the JWT payload they sign and the HTTP request they dispatch;
* `requests.Response.raise_for_status` / `.json()` as an `Except`-valued
  transport step.
-/

namespace Mybit

/-! ### UTF-8 encoding (model of Python `str.encode()`) -/

/-- UTF-8 encoding of a single Unicode code point, as a list of byte values. -/
def utf8Char (c : Char) : List Nat :=
  let n := c.toNat
  if n < 0x80 then [n]
  else if n < 0x800 then
    [0xC0 ||| (n >>> 6), 0x80 ||| (n &&& 0x3F)]
  else if n < 0x10000 then
    [0xE0 ||| (n >>> 12), 0x80 ||| ((n >>> 6) &&& 0x3F), 0x80 ||| (n &&& 0x3F)]
  else
    [0xF0 ||| (n >>> 18), 0x80 ||| ((n >>> 12) &&& 0x3F),
     0x80 ||| ((n >>> 6) &&& 0x3F), 0x80 ||| (n &&& 0x3F)]

/-- UTF-8 encoding of a string, as a list of byte values. -/
def utf8Encode (s : String) : List Nat :=
  (s.data.map utf8Char).flatten

/-! ### Percent-encoding: model of `urllib.parse.urlencode`

`urlencode` uses `quote_plus` with `safe=''` by default: ASCII letters,
digits and `_.-~` pass through, a space becomes `+`, every other byte of the
UTF-8 encoding becomes `%XX` with uppercase hex digits; pairs are rendered
`key=value` and joined with `&` in insertion order. -/

/-- Uppercase hexadecimal digit for a value `< 16`. -/
def hexDigitUpper (n : Nat) : Char :=
  if n < 10 then Char.ofNat (48 + n) else Char.ofNat (55 + n)

/-- Lowercase hexadecimal digit for a value `< 16`. -/
def hexDigitLower (n : Nat) : Char :=
  if n < 10 then Char.ofNat (48 + n) else Char.ofNat (87 + n)

/-- The bytes `urllib.parse.quote` never escapes: ASCII alphanumerics and
`_`, `.`, `-`, `~`. -/
def isAlwaysSafeByte (b : Nat) : Bool :=
  (65 ≤ b && b ≤ 90) || (97 ≤ b && b ≤ 122) || (48 ≤ b && b ≤ 57) ||
    b == 95 || b == 46 || b == 45 || b == 126

/-- `quote_plus` on one byte: space to `+`, safe bytes verbatim, the rest
percent-encoded with uppercase hex. -/
def quotePlusByte (b : Nat) : List Char :=
  if b == 32 then [Char.ofNat 43]
  else if isAlwaysSafeByte b then [Char.ofNat b]
  else [Char.ofNat 37, hexDigitUpper (b / 16), hexDigitUpper (b % 16)]

/-- Model of `urllib.parse.quote_plus(s, safe='')`. -/
def quote_plus (s : String) : String :=
  String.mk ((utf8Encode s).map quotePlusByte).flatten

/-- Model of `urllib.parse.urlencode(query)` over an insertion-ordered
association list. -/
def urlencode (q : List (String × String)) : String :=
  String.intercalate "&" (q.map fun kv => quote_plus kv.1 ++ "=" ++ quote_plus kv.2)

/-! ### SHA-512 (model of `hashlib.sha512`)

Executable SHA-512 over byte lists. 64-bit words are `Nat` values kept below
`2 ^ 64` by explicit `% 2 ^ 64` / masking. -/

/-- All-ones 64-bit mask. -/
def wordMask : Nat := 2 ^ 64 - 1

/-- 64-bit modular addition. -/
def wadd (a b : Nat) : Nat := (a + b) % 2 ^ 64

/-- 64-bit right rotation. -/
def rotr (x n : Nat) : Nat := ((x >>> n) ||| (x <<< (64 - n))) &&& wordMask

/-- 64-bit bitwise complement. -/
def wnot (x : Nat) : Nat := Nat.xor x wordMask

/-- SHA-512 Σ0. -/
def bigSigma0 (x : Nat) : Nat := Nat.xor (rotr x 28) (Nat.xor (rotr x 34) (rotr x 39))

/-- SHA-512 Σ1. -/
def bigSigma1 (x : Nat) : Nat := Nat.xor (rotr x 14) (Nat.xor (rotr x 18) (rotr x 41))

/-- SHA-512 σ0. -/
def smallSigma0 (x : Nat) : Nat := Nat.xor (rotr x 1) (Nat.xor (rotr x 8) (x >>> 7))

/-- SHA-512 σ1. -/
def smallSigma1 (x : Nat) : Nat := Nat.xor (rotr x 19) (Nat.xor (rotr x 61) (x >>> 6))

/-- SHA-512 choice function. -/
def chFn (x y z : Nat) : Nat := Nat.xor (x &&& y) (wnot x &&& z)

/-- SHA-512 majority function. -/
def majFn (x y z : Nat) : Nat := Nat.xor (x &&& y) (Nat.xor (x &&& z) (y &&& z))

/-- The 80 SHA-512 round constants. -/
def sha512K : List Nat :=
  [4794697086780616226, 8158064640168781261, 13096744586834688815,
   16840607885511220156, 4131703408338449720, 6480981068601479193,
   10538285296894168987, 12329834152419229976, 15566598209576043074,
   1334009975649890238, 2608012711638119052, 6128411473006802146,
   8268148722764581231, 9286055187155687089, 11230858885718282805,
   13951009754708518548, 16472876342353939154, 17275323862435702243,
   1135362057144423861, 2597628984639134821, 3308224258029322869,
   5365058923640841347, 6679025012923562964, 8573033837759648693,
   10970295158949994411, 12119686244451234320, 12683024718118986047,
   13788192230050041572, 14330467153632333762, 15395433587784984357,
   489312712824947311, 1452737877330783856, 2861767655752347644,
   3322285676063803686, 5560940570517711597, 5996557281743188959,
   7280758554555802590, 8532644243296465576, 9350256976987008742,
   10552545826968843579, 11727347734174303076, 12113106623233404929,
   14000437183269869457, 14369950271660146224, 15101387698204529176,
   15463397548674623760, 17586052441742319658, 1182934255886127544,
   1847814050463011016, 2177327727835720531, 2830643537854262169,
   3796741975233480872, 4115178125766777443, 5681478168544905931,
   6601373596472566643, 7507060721942968483, 8399075790359081724,
   8693463985226723168, 9568029438360202098, 10144078919501101548,
   10430055236837252648, 11840083180663258601, 13761210420658862357,
   14299343276471374635, 14566680578165727644, 15097957966210449927,
   16922976911328602910, 17689382322260857208, 500013540394364858,
   748580250866718886, 1242879168328830382, 1977374033974150939,
   2944078676154940804, 3659926193048069267, 4368137639120453308,
   4836135668995329356, 5532061633213252278, 6448918945643986474,
   6902733635092675308, 7801388544844847127]

/-- The 8 SHA-512 initial hash values. -/
def sha512H0 : List Nat :=
  [7640891576956012808, 13503953896175478587, 4354685564936845355,
   11912009170470909681, 5840696475078001361, 11170449401992604703,
   2270897969802886507, 6620516959819538809]

/-- `n`-byte big-endian rendering of a value. -/
def beBytes : Nat → Nat → List Nat
  | 0, _ => []
  | n + 1, v => beBytes n (v / 256) ++ [v % 256]

/-- SHA-512 padding: append `0x80`, zero bytes to 112 mod 128, then the
128-bit big-endian bit length. -/
def padMessage (msg : List Nat) : List Nat :=
  msg ++ [128] ++ List.replicate ((239 - msg.length % 128) % 128) 0 ++
    beBytes 16 (8 * msg.length)

/-- Big-endian grouping of bytes into 64-bit words (8 bytes per word). -/
def bytesToWords : List Nat → List Nat
  | b0 :: b1 :: b2 :: b3 :: b4 :: b5 :: b6 :: b7 :: rest =>
      (((((((b0 * 256 + b1) * 256 + b2) * 256 + b3) * 256 + b4) * 256 + b5) * 256
          + b6) * 256 + b7) :: bytesToWords rest
  | _ => []

/-- Grouping of a word list into 16-word (1024-bit) blocks. -/
def chunksOf16 : List Nat → List (List Nat)
  | w0 :: w1 :: w2 :: w3 :: w4 :: w5 :: w6 :: w7 ::
    w8 :: w9 :: w10 :: w11 :: w12 :: w13 :: w14 :: w15 :: rest =>
      [w0, w1, w2, w3, w4, w5, w6, w7, w8, w9, w10, w11, w12, w13, w14, w15] ::
        chunksOf16 rest
  | _ => []

/-- Extend a 16-word block to the 80-word message schedule (`n` extension
steps remaining). -/
def extendSchedule : Nat → List Nat → List Nat
  | 0, w => w
  | n + 1, w =>
      let t := w.length
      extendSchedule n (w ++
        [wadd (wadd (smallSigma1 (w.getD (t - 2) 0)) (w.getD (t - 7) 0))
              (wadd (smallSigma0 (w.getD (t - 15) 0)) (w.getD (t - 16) 0))])

/-- The eight SHA-512 working registers. -/
structure Regs where
  a : Nat
  b : Nat
  c : Nat
  d : Nat
  e : Nat
  f : Nat
  g : Nat
  h : Nat

/-- One SHA-512 compression round, consuming a (round constant, schedule
word) pair. -/
def roundStep (r : Regs) (kw : Nat × Nat) : Regs :=
  let t1 := wadd r.h (wadd (bigSigma1 r.e) (wadd (chFn r.e r.f r.g) (wadd kw.1 kw.2)))
  let t2 := wadd (bigSigma0 r.a) (majFn r.a r.b r.c)
  ⟨wadd t1 t2, r.a, r.b, r.c, wadd r.d t1, r.e, r.f, r.g⟩

/-- SHA-512 compression of one 16-word block into the running hash state. -/
def compressBlock (hs : List Nat) (block : List Nat) : List Nat :=
  let w := extendSchedule 64 block
  let r0 : Regs := ⟨hs.getD 0 0, hs.getD 1 0, hs.getD 2 0, hs.getD 3 0,
                    hs.getD 4 0, hs.getD 5 0, hs.getD 6 0, hs.getD 7 0⟩
  let r := (sha512K.zip w).foldl roundStep r0
  [wadd (hs.getD 0 0) r.a, wadd (hs.getD 1 0) r.b, wadd (hs.getD 2 0) r.c,
   wadd (hs.getD 3 0) r.d, wadd (hs.getD 4 0) r.e, wadd (hs.getD 5 0) r.f,
   wadd (hs.getD 6 0) r.g, wadd (hs.getD 7 0) r.h]

/-- SHA-512 digest of a byte list, as a 64-byte list. -/
def sha512Bytes (msg : List Nat) : List Nat :=
  (((chunksOf16 (bytesToWords (padMessage msg))).foldl compressBlock sha512H0).map
      (beBytes 8)).flatten

/-- Lowercase hex rendering of a byte list (model of `.hexdigest()`). -/
def hexdigest (bytes : List Nat) : String :=
  String.mk (bytes.map fun b => [hexDigitLower (b / 16), hexDigitLower (b % 16)]).flatten

/-- Model of `hashlib.sha512(s.encode()).hexdigest()`: lowercase-hex SHA-512
of the UTF-8 bytes of a string. -/
def sha512HexOfString (s : String) : String :=
  hexdigest (sha512Bytes (utf8Encode s))

/-! ### Enumerations of `src/api/upbit.py` -/

/-- `class OrderType(enum.Enum)`. -/
inductive OrderType where
  | LIMIT
  | PRICE
  | MARKET
deriving DecidableEq

/-- The `.value` of an `OrderType` member. -/
def OrderType.value : OrderType → String
  | .LIMIT => "limit"
  | .PRICE => "price"
  | .MARKET => "market"

/-- `class Market(enum.Enum)`. -/
inductive Market where
  | KRW_BTC
  | KRW_ETH
deriving DecidableEq

/-- The `.value` of a `Market` member. -/
def Market.value : Market → String
  | .KRW_BTC => "KRW-BTC"
  | .KRW_ETH => "KRW-ETH"

/-- `class Side(enum.Enum)`. -/
inductive Side where
  | BID
  | ASK
deriving DecidableEq

/-- The `.value` of a `Side` member. -/
def Side.value : Side → String
  | .BID => "bid"
  | .ASK => "ask"

/-! ### The client and its requests -/

/-- The `UPBitApi` instance state: the three values read from the
environment in `__init__`. -/
structure UPBitApi where
  access_key : String
  secret_key : String
  server_url : String
deriving DecidableEq

/-- `__init__` reads the three environment variables with `os.environ[...]`,
which raises `KeyError` when a variable is absent; the specification's error
taxonomy calls this failure `ConfigurationError`. -/
inductive ConfigurationError where
  | keyError (key : String)
deriving DecidableEq

/-- Model of `os.environ[key]`: the value when present, `KeyError` when
absent. -/
def environGet (environ : String → Option String) (key : String) :
    Except ConfigurationError String :=
  match environ key with
  | some v => Except.ok v
  | none => Except.error (ConfigurationError.keyError key)

/-- Model of `UPBitApi.__init__` over an explicit environment: reads the
access key, the secret key and the server URL, failing on the first absent
variable. -/
def UPBitApi.init (environ : String → Option String) :
    Except ConfigurationError UPBitApi :=
  match environGet environ "UPBIT_OPEN_API_ACCESS_KEY" with
  | Except.error e => Except.error e
  | Except.ok access =>
    match environGet environ "UPBIT_OPEN_API_SECRET_KEY" with
    | Except.error e => Except.error e
    | Except.ok secret =>
      match environGet environ "UPBIT_OPEN_API_SERVER_URL" with
      | Except.error e => Except.error e
      | Except.ok url =>
        Except.ok { access_key := access, secret_key := secret, server_url := url }

/-- HTTP verb of a dispatched request (`requests.get` / `requests.post`). -/
inductive HttpMethod where
  | get
  | post
deriving DecidableEq

/-- The request handed to `requests.get`/`requests.post` by
`_request_tmpl(req_func, url, params, headers)`: both verbs are called as
`req_func(url, params=params, headers=headers)`, so parameters always travel
as query-string pairs and the body is never populated. -/
structure Request where
  method : HttpMethod
  url : String
  params : Option (List (String × String))
  headers : Option (List (String × String))
  body : Option String
deriving DecidableEq

/-- Model of `jwt.encode(payload, key)`: an abstract serialization of the
signed payload with the secret key. The claims inspect only the payload
mapping and the `Bearer` framing, never the token text itself. -/
def jwt_encode (payload : List (String × String)) (key : String) : String :=
  String.intercalate ";" (payload.map fun kv => kv.1 ++ "=" ++ kv.2) ++ "#" ++ key

/-- What one client method produces before transport: the JWT payload it
signed (`none` for unauthenticated calls) and the request it dispatches. -/
structure OpCall where
  payload : Option (List (String × String))
  request : Request
deriving DecidableEq

/-- `get_market_all`: unauthenticated GET on `/v1/market/all` with
`params={"isDetails": "false"}` and the default `headers=None`. -/
def UPBitApi.get_market_all (api : UPBitApi) : OpCall :=
  { payload := none
    request :=
      { method := HttpMethod.get
        url := api.server_url ++ "/v1/market/all"
        params := some [("isDetails", "false")]
        headers := none
        body := none } }

/-- `get_orders_chance(market)`: hashes `urlencode({"market": market})`,
signs the payload, and issues a GET on `/v1/orders/chance` with the same
query. The `nonce` argument is this call's `str(uuid.uuid4())` draw. -/
def UPBitApi.get_orders_chance (api : UPBitApi) (market : String)
    (nonce : String) : OpCall :=
  let query : List (String × String) := [("market", market)]
  let query_hash := sha512HexOfString (urlencode query)
  let payload : List (String × String) :=
    [("access_key", api.access_key), ("nonce", nonce),
     ("query_hash", query_hash), ("query_hash_alg", "SHA512")]
  let authorize_token := "Bearer " ++ jwt_encode payload api.secret_key
  { payload := some payload
    request :=
      { method := HttpMethod.get
        url := api.server_url ++ "/v1/orders/chance"
        params := some query
        headers := some [("Authorization", authorize_token)]
        body := none } }

/-- `get_accounts()`: signs a payload of just the access key and this call's
`str(uuid.uuid4())` draw, and issues a GET on `/v1/accounts` with no
query parameters. -/
def UPBitApi.get_accounts (api : UPBitApi) (nonce : String) : OpCall :=
  let payload : List (String × String) :=
    [("access_key", api.access_key), ("nonce", nonce)]
  let authorize_token := "Bearer " ++ jwt_encode payload api.secret_key
  { payload := some payload
    request :=
      { method := HttpMethod.get
        url := api.server_url ++ "/v1/accounts"
        params := none
        headers := some [("Authorization", authorize_token)]
        body := none } }

/-- `deposits_krw(amount_krw)`: hashes
`urlencode({"amount": str(amount_krw)})`, signs the payload, and issues a
POST on `/v1/deposits/krw` with the same query. -/
def UPBitApi.deposits_krw (api : UPBitApi) (amount_krw : Int)
    (nonce : String) : OpCall :=
  let query : List (String × String) := [("amount", toString amount_krw)]
  let query_hash := sha512HexOfString (urlencode query)
  let payload : List (String × String) :=
    [("access_key", api.access_key), ("nonce", nonce),
     ("query_hash", query_hash), ("query_hash_alg", "SHA512")]
  let authorize_token := "Bearer " ++ jwt_encode payload api.secret_key
  { payload := some payload
    request :=
      { method := HttpMethod.post
        url := api.server_url ++ "/v1/deposits/krw"
        params := some query
        headers := some [("Authorization", authorize_token)]
        body := none } }

/-- The parameter mapping built by `order_bid`: the dict literal
`{"market": market.value, "side": "bid", "ord_type": order_type.value}`,
then `volume` appended when given, then `price` appended when given
(each via `str(...)`). -/
def orderBidQuery (market : Market) (order_type : OrderType)
    (volume : Option Int) (price : Option Int) : List (String × String) :=
  let query : List (String × String) :=
    [("market", market.value), ("side", "bid"), ("ord_type", order_type.value)]
  let query := match volume with
    | some v => query ++ [("volume", toString v)]
    | none => query
  match price with
  | some p => query ++ [("price", toString p)]
  | none => query

/-- `order_bid(market, order_type, volume, price)`: hashes the urlencoded
`orderBidQuery`, signs the payload, and issues a POST on `/v1/orders` with
the same query. -/
def UPBitApi.order_bid (api : UPBitApi) (market : Market)
    (order_type : OrderType) (volume : Option Int) (price : Option Int)
    (nonce : String) : OpCall :=
  let query := orderBidQuery market order_type volume price
  let query_hash := sha512HexOfString (urlencode query)
  let payload : List (String × String) :=
    [("access_key", api.access_key), ("nonce", nonce),
     ("query_hash", query_hash), ("query_hash_alg", "SHA512")]
  let authorize_token := "Bearer " ++ jwt_encode payload api.secret_key
  { payload := some payload
    request :=
      { method := HttpMethod.post
        url := api.server_url ++ "/v1/orders"
        params := some query
        headers := some [("Authorization", authorize_token)]
        body := none } }

/-! ### Transport: model of `_request_tmpl` -/

/-- The HTTP response as the client sees it: status code, raw body text, and
the result of attempting to parse the body as JSON (`r.json()`), with the
JSON value left abstract in `α`. -/
structure Response (α : Type) where
  status : Nat
  text : String
  json : Option α
deriving DecidableEq

/-- Errors a dispatched request can surface: `requests.exceptions.HTTPError`
from `raise_for_status` (carrying status and body), or a body that fails to
parse as JSON. -/
inductive RequestError where
  | httpError (status : Nat) (text : String)
  | jsonDecodeError
deriving DecidableEq

/-- Model of `requests.Response.raise_for_status()`: raises `HTTPError`
exactly when `400 <= status_code < 600` (client or server error), and
returns normally for every other status. -/
def raise_for_status {α : Type} (r : Response α) : Except RequestError Unit :=
  if 400 ≤ r.status ∧ r.status < 600 then
    Except.error (RequestError.httpError r.status r.text)
  else Except.ok ()

/-- Model of `_request_tmpl`'s response handling: `r.raise_for_status()`
then `return r.json()`. -/
def request_tmpl {α : Type} (r : Response α) : Except RequestError α :=
  match raise_for_status r with
  | Except.error e => Except.error e
  | Except.ok _ =>
    match r.json with
    | some j => Except.ok j
    | none => Except.error RequestError.jsonDecodeError

/-! ### Sanity checks of the embedded primitives against reference values

The digests below were produced by an independent SHA-512 implementation
over the same inputs, and the encodings by the reference `urlencode`. -/

/-- The SHA-512 model reproduces the reference digest of the empty string. -/
theorem sha512Hex_empty_vector :
    sha512HexOfString "" =
      "cf83e1357eefb8bdf1542850d66d8007d620e4050b5715dc83f4a921d36ce9ce47d0d13c5d85f2b0ff8318d2877eec2f63b931bd47417a81a538327af927da3e" := by
  decide

/-- The SHA-512 model reproduces the reference digest of `"abc"`. -/
theorem sha512Hex_abc_vector :
    sha512HexOfString "abc" =
      "ddaf35a193617abacc417349ae20413112e6fa4e89a97ea20a9eeee64b55d39a2192992a274fc1a836ba3c23a3feebbd454d4423643ce80e2a9ac94fa54ca49f" := by
  decide

/-- The urlencode model reproduces the reference quoting: space to `+`,
reserved bytes percent-encoded with uppercase hex, `~_.-` untouched. -/
theorem urlencode_quoting_vector :
    urlencode [("a b", "c/d+e~f_.-")] = "a+b=c%2Fd%2Be~f_.-" := by
  decide

/-- The urlencode model percent-encodes multi-byte UTF-8 like the
reference. -/
theorem urlencode_utf8_vector :
    urlencode [("k", "한")] = "k=%ED%95%9C" := by
  decide

/-! ### The claims -/

/-- C1: for every authenticated operation with a non-empty parameter mapping
(`get_orders_chance`, `deposits_krw`, `order_bid`), the `query_hash` field
of the signed token payload equals the lowercase-hex SHA-512 digest of the
percent-encoded `key=value&...` serialization of that mapping in insertion
order, and `query_hash_alg` equals `"SHA512"`; recomputing the hash
independently over the identical encoded string (here: the reference digest
of `"market=KRW-BTC"` produced by a separate SHA-512 implementation) yields
the same value. -/
theorem C1_query_hash_signed (api : UPBitApi) (market nonce : String)
    (amount : Int) (mk : Market) (ot : OrderType) (vol pr : Option Int) :
    ((api.get_orders_chance market nonce).payload.bind (List.lookup "query_hash")
        = some (sha512HexOfString (urlencode [("market", market)]))
      ∧ (api.get_orders_chance market nonce).payload.bind (List.lookup "query_hash_alg")
        = some "SHA512")
    ∧ ((api.deposits_krw amount nonce).payload.bind (List.lookup "query_hash")
        = some (sha512HexOfString (urlencode [("amount", toString amount)]))
      ∧ (api.deposits_krw amount nonce).payload.bind (List.lookup "query_hash_alg")
        = some "SHA512")
    ∧ ((api.order_bid mk ot vol pr nonce).payload.bind (List.lookup "query_hash")
        = some (sha512HexOfString (urlencode (orderBidQuery mk ot vol pr)))
      ∧ (api.order_bid mk ot vol pr nonce).payload.bind (List.lookup "query_hash_alg")
        = some "SHA512")
    ∧ sha512HexOfString (urlencode [("market", "KRW-BTC")])
        = "b749dfc2e17f75e5b46c8161f97fe7c9298ed4167ea21c5c94d16573efd8a801351470c0ff1a9a3f1e763f8249968218c04c571c8b45aa80cd4588e6c4be0738" :=
  ⟨⟨rfl, rfl⟩, ⟨rfl, rfl⟩, ⟨rfl, rfl⟩, by decide⟩

/-- C2: the `get_accounts` token payload contains exactly the access key
and the nonce, and has no `query_hash` and no `query_hash_alg` field. -/
theorem C2_accounts_payload_no_hash (api : UPBitApi) (nonce : String) :
    (api.get_accounts nonce).payload
        = some [("access_key", api.access_key), ("nonce", nonce)]
    ∧ (api.get_accounts nonce).payload.bind (List.lookup "query_hash") = none
    ∧ (api.get_accounts nonce).payload.bind (List.lookup "query_hash_alg") = none :=
  ⟨rfl, rfl, rfl⟩

/-- C3: for every authenticated operation with non-empty parameters, the
mapping whose urlencoding is hashed into `query_hash` is exactly the mapping
sent as the request's query parameters — for GET (`get_orders_chance`) and
POST (`deposits_krw`, `order_bid`) alike — and the request body is never
populated. -/
theorem C3_hashed_mapping_is_sent_mapping (api : UPBitApi)
    (market nonce : String) (amount : Int) (mk : Market) (ot : OrderType)
    (vol pr : Option Int) :
    ((api.get_orders_chance market nonce).request.params
        = some [("market", market)]
      ∧ (api.get_orders_chance market nonce).payload.bind (List.lookup "query_hash")
        = some (sha512HexOfString (urlencode [("market", market)]))
      ∧ (api.get_orders_chance market nonce).request.method = HttpMethod.get
      ∧ (api.get_orders_chance market nonce).request.body = none)
    ∧ ((api.deposits_krw amount nonce).request.params
        = some [("amount", toString amount)]
      ∧ (api.deposits_krw amount nonce).payload.bind (List.lookup "query_hash")
        = some (sha512HexOfString (urlencode [("amount", toString amount)]))
      ∧ (api.deposits_krw amount nonce).request.method = HttpMethod.post
      ∧ (api.deposits_krw amount nonce).request.body = none)
    ∧ ((api.order_bid mk ot vol pr nonce).request.params
        = some (orderBidQuery mk ot vol pr)
      ∧ (api.order_bid mk ot vol pr nonce).payload.bind (List.lookup "query_hash")
        = some (sha512HexOfString (urlencode (orderBidQuery mk ot vol pr)))
      ∧ (api.order_bid mk ot vol pr nonce).request.method = HttpMethod.post
      ∧ (api.order_bid mk ot vol pr nonce).request.body = none) :=
  ⟨⟨rfl, rfl, rfl, rfl⟩, ⟨rfl, rfl, rfl, rfl⟩, ⟨rfl, rfl, rfl, rfl⟩⟩

/-- C4: `order_bid` builds `{market, side: "bid", ord_type}` and adds the
`volume` key exactly when `volume` is provided and the `price` key exactly
when `price` is provided (each stringified), with no client-side validation
on the combination; in particular the `(KRW_BTC, PRICE, price=10000)` call
yields exactly the four-entry mapping with no `volume` key. -/
theorem C4_order_bid_query_shape (mk : Market) (ot : OrderType)
    (vol pr : Option Int) :
    List.lookup "market" (orderBidQuery mk ot vol pr) = some mk.value
    ∧ List.lookup "side" (orderBidQuery mk ot vol pr) = some "bid"
    ∧ List.lookup "ord_type" (orderBidQuery mk ot vol pr) = some ot.value
    ∧ List.lookup "volume" (orderBidQuery mk ot vol pr) = vol.map toString
    ∧ List.lookup "price" (orderBidQuery mk ot vol pr) = pr.map toString
    ∧ orderBidQuery Market.KRW_BTC OrderType.PRICE none (some 10000)
        = [("market", "KRW-BTC"), ("side", "bid"), ("ord_type", "price"),
           ("price", "10000")] := by
  cases vol <;> cases pr <;> exact ⟨rfl, rfl, rfl, rfl, rfl, rfl⟩

/-- C5 counterexample: a response with status 304 — not a 2xx status — does
not make the operation raise `HTTPError`; `_request_tmpl` goes on to return
the parsed body, because `raise_for_status` only raises for 4xx/5xx. -/
theorem C5_counterexample_status_304 :
    (304 < 200 ∨ 300 ≤ 304)
    ∧ request_tmpl (Response.mk 304 "not modified" (some (0 : Nat)))
        = Except.ok 0 :=
  ⟨Or.inr (by decide), rfl⟩

/-- C5 (amended): if the response status is 4xx or 5xx the operation raises
an `HTTPError` carrying the status code and body; if the status is 2xx the
operation parses the response body as JSON and returns it. -/
theorem C5_status_handling {α : Type} (r : Response α) (j : α) :
    (400 ≤ r.status ∧ r.status < 600 →
      request_tmpl r = Except.error (RequestError.httpError r.status r.text))
    ∧ (200 ≤ r.status ∧ r.status < 300 → r.json = some j →
      request_tmpl r = Except.ok j) := by
  constructor
  · intro h
    simp [request_tmpl, raise_for_status, h]
  · intro h hj
    have hne : ¬(400 ≤ r.status ∧ r.status < 600) := by omega
    simp [request_tmpl, raise_for_status, hne, hj]

/-- Witness for `C5_status_handling` at status 404 (the spec's own mocked
example) and at status 200. -/
theorem C5_status_handling_witness :
    request_tmpl (Response.mk 404 "not found" (some (0 : Nat)))
        = Except.error (RequestError.httpError 404 "not found")
    ∧ request_tmpl (Response.mk 200 "ok" (some (7 : Nat))) = Except.ok 7 :=
  ⟨(C5_status_handling (Response.mk 404 "not found" (some (0 : Nat))) 0).1
      (by decide),
   (C5_status_handling (Response.mk 200 "ok" (some (7 : Nat))) 7).2
      (by decide) rfl⟩

/-- C6: construction reads all three configuration values from the
environment and fails with the configuration error (the `KeyError` raised
by `os.environ[...]`) naming the first absent variable; with all three
present it succeeds with exactly those values. -/
theorem C6_construction_requires_config (environ : String → Option String) :
    (environ "UPBIT_OPEN_API_ACCESS_KEY" = none →
      UPBitApi.init environ
        = Except.error (ConfigurationError.keyError "UPBIT_OPEN_API_ACCESS_KEY"))
    ∧ (∀ a, environ "UPBIT_OPEN_API_ACCESS_KEY" = some a →
        environ "UPBIT_OPEN_API_SECRET_KEY" = none →
        UPBitApi.init environ
          = Except.error (ConfigurationError.keyError "UPBIT_OPEN_API_SECRET_KEY"))
    ∧ (∀ a s, environ "UPBIT_OPEN_API_ACCESS_KEY" = some a →
        environ "UPBIT_OPEN_API_SECRET_KEY" = some s →
        environ "UPBIT_OPEN_API_SERVER_URL" = none →
        UPBitApi.init environ
          = Except.error (ConfigurationError.keyError "UPBIT_OPEN_API_SERVER_URL"))
    ∧ (∀ a s u, environ "UPBIT_OPEN_API_ACCESS_KEY" = some a →
        environ "UPBIT_OPEN_API_SECRET_KEY" = some s →
        environ "UPBIT_OPEN_API_SERVER_URL" = some u →
        UPBitApi.init environ = Except.ok ⟨a, s, u⟩) := by
  refine ⟨fun h => ?_, fun a ha h => ?_, fun a s ha hs h => ?_,
    fun a s u ha hs hu => ?_⟩
  · simp [UPBitApi.init, environGet, h]
  · simp [UPBitApi.init, environGet, ha, h]
  · simp [UPBitApi.init, environGet, ha, hs, h]
  · simp [UPBitApi.init, environGet, ha, hs, hu]

/-- Witness for `C6_construction_requires_config`: each absence pattern
fails with the corresponding error, and a complete environment succeeds. -/
theorem C6_construction_witness :
    UPBitApi.init (fun _ => none)
        = Except.error (ConfigurationError.keyError "UPBIT_OPEN_API_ACCESS_KEY")
    ∧ UPBitApi.init
        (fun key => if key = "UPBIT_OPEN_API_ACCESS_KEY" then some "ak" else none)
        = Except.error (ConfigurationError.keyError "UPBIT_OPEN_API_SECRET_KEY")
    ∧ UPBitApi.init
        (fun key => if key = "UPBIT_OPEN_API_SERVER_URL" then none else some key)
        = Except.error (ConfigurationError.keyError "UPBIT_OPEN_API_SERVER_URL")
    ∧ UPBitApi.init (fun key => some key)
        = Except.ok ⟨"UPBIT_OPEN_API_ACCESS_KEY", "UPBIT_OPEN_API_SECRET_KEY",
                     "UPBIT_OPEN_API_SERVER_URL"⟩ :=
  ⟨(C6_construction_requires_config (fun _ => none)).1 rfl,
   (C6_construction_requires_config
      (fun key => if key = "UPBIT_OPEN_API_ACCESS_KEY" then some "ak" else none)).2.1
      "ak" (by decide) (by decide),
   (C6_construction_requires_config
      (fun key => if key = "UPBIT_OPEN_API_SERVER_URL" then none else some key)).2.2.1
      "UPBIT_OPEN_API_ACCESS_KEY" "UPBIT_OPEN_API_SECRET_KEY"
      (by decide) (by decide) (by decide),
   (C6_construction_requires_config (fun key => some key)).2.2.2 _ _ _ rfl rfl rfl⟩

/-- C7: every authenticated operation places its per-call `uuid.uuid4()`
draw, passed here as the `nonce` argument, into the `nonce` field of the
token payload, so two invocations with identical other inputs but distinct
draws produce payloads with distinct nonces (the code never caches or
reuses a draw across calls). -/
theorem C7_fresh_nonce_per_call (api : UPBitApi) (market : String)
    (amount : Int) (mk : Market) (ot : OrderType) (vol pr : Option Int)
    (n1 n2 : String) (h : n1 ≠ n2) :
    ((api.get_orders_chance market n1).payload.bind (List.lookup "nonce") = some n1
      ∧ (api.get_accounts n1).payload.bind (List.lookup "nonce") = some n1
      ∧ (api.deposits_krw amount n1).payload.bind (List.lookup "nonce") = some n1
      ∧ (api.order_bid mk ot vol pr n1).payload.bind (List.lookup "nonce") = some n1)
    ∧ ((api.get_orders_chance market n1).payload.bind (List.lookup "nonce")
        ≠ (api.get_orders_chance market n2).payload.bind (List.lookup "nonce")
      ∧ (api.get_accounts n1).payload.bind (List.lookup "nonce")
        ≠ (api.get_accounts n2).payload.bind (List.lookup "nonce")
      ∧ (api.deposits_krw amount n1).payload.bind (List.lookup "nonce")
        ≠ (api.deposits_krw amount n2).payload.bind (List.lookup "nonce")
      ∧ (api.order_bid mk ot vol pr n1).payload.bind (List.lookup "nonce")
        ≠ (api.order_bid mk ot vol pr n2).payload.bind (List.lookup "nonce")) := by
  refine ⟨⟨rfl, rfl, rfl, rfl⟩, ?_, ?_, ?_, ?_⟩ <;>
    exact fun hc => h (Option.some.inj hc)

/-- Witness for `C7_fresh_nonce_per_call` at a concrete client and the two
distinct draws `"nonce-1"`, `"nonce-2"`. -/
theorem C7_fresh_nonce_witness :
    (((UPBitApi.mk "ak" "sk" "https://api.upbit.com").get_orders_chance
          "KRW-BTC" "nonce-1").payload.bind (List.lookup "nonce") = some "nonce-1"
      ∧ ((UPBitApi.mk "ak" "sk" "https://api.upbit.com").get_accounts
          "nonce-1").payload.bind (List.lookup "nonce") = some "nonce-1"
      ∧ ((UPBitApi.mk "ak" "sk" "https://api.upbit.com").deposits_krw
          10000 "nonce-1").payload.bind (List.lookup "nonce") = some "nonce-1"
      ∧ ((UPBitApi.mk "ak" "sk" "https://api.upbit.com").order_bid
          Market.KRW_BTC OrderType.PRICE none (some 10000)
          "nonce-1").payload.bind (List.lookup "nonce") = some "nonce-1")
    ∧ (((UPBitApi.mk "ak" "sk" "https://api.upbit.com").get_orders_chance
          "KRW-BTC" "nonce-1").payload.bind (List.lookup "nonce")
        ≠ ((UPBitApi.mk "ak" "sk" "https://api.upbit.com").get_orders_chance
          "KRW-BTC" "nonce-2").payload.bind (List.lookup "nonce")
      ∧ ((UPBitApi.mk "ak" "sk" "https://api.upbit.com").get_accounts
          "nonce-1").payload.bind (List.lookup "nonce")
        ≠ ((UPBitApi.mk "ak" "sk" "https://api.upbit.com").get_accounts
          "nonce-2").payload.bind (List.lookup "nonce")
      ∧ ((UPBitApi.mk "ak" "sk" "https://api.upbit.com").deposits_krw
          10000 "nonce-1").payload.bind (List.lookup "nonce")
        ≠ ((UPBitApi.mk "ak" "sk" "https://api.upbit.com").deposits_krw
          10000 "nonce-2").payload.bind (List.lookup "nonce")
      ∧ ((UPBitApi.mk "ak" "sk" "https://api.upbit.com").order_bid
          Market.KRW_BTC OrderType.PRICE none (some 10000)
          "nonce-1").payload.bind (List.lookup "nonce")
        ≠ ((UPBitApi.mk "ak" "sk" "https://api.upbit.com").order_bid
          Market.KRW_BTC OrderType.PRICE none (some 10000)
          "nonce-2").payload.bind (List.lookup "nonce")) :=
  C7_fresh_nonce_per_call (UPBitApi.mk "ak" "sk" "https://api.upbit.com")
    "KRW-BTC" 10000 Market.KRW_BTC OrderType.PRICE none (some 10000)
    "nonce-1" "nonce-2" (by decide)

/-- C8: `get_market_all` issues a GET whose query parameters are exactly
`{isDetails: "false"}`, with no headers (hence no `Authorization` header)
and no signed payload. -/
theorem C8_market_all_unauthenticated (api : UPBitApi) :
    api.get_market_all.request.method = HttpMethod.get
    ∧ api.get_market_all.request.params = some [("isDetails", "false")]
    ∧ api.get_market_all.request.headers = none
    ∧ api.get_market_all.payload = none :=
  ⟨rfl, rfl, rfl, rfl⟩

/-- C9: `order_bid`'s arguments range over closed enumerations, so every
order mapping it builds has a `market` value among `"KRW-BTC"`/`"KRW-ETH"`,
an `ord_type` value among `"limit"`/`"price"`/`"market"`, and `side` always
`"bid"` — no other market is expressible and no ask order can be placed. -/
theorem C9_closed_vocabularies (mk : Market) (ot : OrderType)
    (vol pr : Option Int) :
    (mk.value = "KRW-BTC" ∨ mk.value = "KRW-ETH")
    ∧ (ot.value = "limit" ∨ ot.value = "price" ∨ ot.value = "market")
    ∧ List.lookup "market" (orderBidQuery mk ot vol pr) = some mk.value
    ∧ List.lookup "side" (orderBidQuery mk ot vol pr) = some "bid"
    ∧ List.lookup "ord_type" (orderBidQuery mk ot vol pr) = some ot.value := by
  refine ⟨?_, ?_, ?_, ?_, ?_⟩
  · cases mk
    · exact Or.inl rfl
    · exact Or.inr rfl
  · cases ot
    · exact Or.inl rfl
    · exact Or.inr (Or.inl rfl)
    · exact Or.inr (Or.inr rfl)
  · cases vol <;> cases pr <;> rfl
  · cases vol <;> cases pr <;> rfl
  · cases vol <;> cases pr <;> rfl

/-- C10: `deposits_krw` performs no range or sign validation: for every
integer amount — zero and negatives included — it builds exactly
`{amount: str(amount)}`, POSTs it, and signs a token whose `query_hash`
covers that mapping; the final conjunct checks the digest of
`"amount=-5"` against the reference SHA-512 value. -/
theorem C10_deposits_any_amount (api : UPBitApi) (amount : Int)
    (nonce : String) :
    (api.deposits_krw amount nonce).request.params
        = some [("amount", toString amount)]
    ∧ (api.deposits_krw amount nonce).request.method = HttpMethod.post
    ∧ (api.deposits_krw amount nonce).payload.bind (List.lookup "query_hash")
        = some (sha512HexOfString (urlencode [("amount", toString amount)]))
    ∧ sha512HexOfString (urlencode [("amount", toString (-5 : Int))])
        = "bcec956b324da9177f866c6f7cb71549fc63243ff3dd476b1d3acb544c761139d4204501f02cefaf329afd3c0dd9087570b96baa007b1a8ce30cd6dbfe1b547f" :=
  ⟨rfl, rfl, rfl, by decide⟩

end Mybit
